import Mathlib

/-!
Verification of the email-validator GraphQL server.

The repository wires one GraphQL query field, `validateEmail`, to the
third-party `validator.isEmail` routine and serves it over HTTP with an
Express-style middleware pipeline.  Two variants of the server file exist:
`src/server.js` and `src/unnamed/part_000`; the latter additionally installs
an `addCacheHeaders` middleware.  The email checker itself and the static
`views` directory are external to the repository, so they enter the model as
parameters (`isEmail : String → Bool`, `staticFiles : String → Option String`);
everything else below is a direct translation of the source.
-/

namespace ServerJs

/-- The resolver `resolvers.Query.validateEmail` from `src/server.js`
(lines 40–48): applies the external checker `validator.isEmail` (the abstract
`isEmail` argument) to the raw input and interpolates the input into the
message, exactly as the template literals in the source do. -/
def validateEmail (isEmail : String → Bool) (email : String) : String :=
  if isEmail email then
    "The email '" ++ email ++ "' is valid."
  else
    "The email '" ++ email ++ "' is invalid."

end ServerJs

namespace Part000

/-- The resolver `resolvers.Query.validateEmail` from `src/unnamed/part_000`
(lines 15–23); its text is independent of the `src/server.js` copy. -/
def validateEmail (isEmail : String → Bool) (email : String) : String :=
  if isEmail email then
    "The email '" ++ email ++ "' is valid."
  else
    "The email '" ++ email ++ "' is invalid."

end Part000

/-- The resolver under JavaScript exception semantics.  The checker may fail
(`Except.error`, a thrown exception); the source body
`validator.isEmail(email) ? … : …` contains no `try`/`catch`, so a checker
failure propagates unchanged to the caller. -/
def validateEmailExc (isEmail : String → Except String Bool)
    (email : String) : Except String String :=
  match isEmail email with
  | Except.error err => Except.error err
  | Except.ok b =>
      Except.ok (if b then "The email '" ++ email ++ "' is valid."
                 else "The email '" ++ email ++ "' is invalid.")

/-- Lower-case hexadecimal digit for `n < 16`, as JSON `\u00xx` escapes use. -/
def hexDigitChar (n : Nat) : Char :=
  Char.ofNat (if n < 10 then 48 + n else 87 + n)

/-- Numeric value of a lower-case hexadecimal digit. -/
def hexDigitVal (c : Char) : Nat :=
  if c.toNat < 58 then c.toNat - 48 else c.toNat - 87

/-- Modelled from the spec: the JSON string escaping applied when the
resolver's message is serialised into the response body.  That code lives in
the third-party GraphQL HTTP layer (`JSON.stringify`), not under `src/`; the
spec requires that the implementation "escape/quote safely" for the JSON
output context.  Standard JSON escaping: quote and backslash get a backslash,
common control characters get their two-character escapes, the remaining
control characters get `\u00xx`. -/
def jsonEscapeChar (c : Char) : List Char :=
  if c = '"' then ['\\', '"']
  else if c = '\\' then ['\\', '\\']
  else if c = '\n' then ['\\', 'n']
  else if c = '\r' then ['\\', 'r']
  else if c = '\t' then ['\\', 't']
  else if c.toNat < 32 then
    ['\\', 'u', '0', '0', hexDigitChar (c.toNat / 16), hexDigitChar (c.toNat % 16)]
  else [c]

/-- JSON escaping of a whole character sequence. -/
def jsonEscapeList : List Char → List Char
  | [] => []
  | c :: cs => jsonEscapeChar c ++ jsonEscapeList cs

/-- Inverse of `jsonEscapeList`: a JSON string-body reader.  Used to state
that the escaping is lossless (the consumer recovers the exact message, so no
input character corrupts the surrounding context). -/
def jsonUnescapeList : List Char → List Char
  | '\\' :: '"' :: cs => '"' :: jsonUnescapeList cs
  | '\\' :: '\\' :: cs => '\\' :: jsonUnescapeList cs
  | '\\' :: 'n' :: cs => '\n' :: jsonUnescapeList cs
  | '\\' :: 'r' :: cs => '\r' :: jsonUnescapeList cs
  | '\\' :: 't' :: cs => '\t' :: jsonUnescapeList cs
  | '\\' :: 'u' :: h1 :: h2 :: h3 :: h4 :: cs =>
      Char.ofNat (4096 * hexDigitVal h1 + 256 * hexDigitVal h2 +
        16 * hexDigitVal h3 + hexDigitVal h4) :: jsonUnescapeList cs
  | c :: cs => c :: jsonUnescapeList cs
  | [] => []

theorem hexDigitVal_hexDigitChar (n : Nat) (h : n < 16) :
    hexDigitVal (hexDigitChar n) = n := by
  interval_cases n <;> decide

theorem jsonUnescapeList_cons_of_ne (c : Char) (h : ¬ c = '\\') (cs : List Char) :
    jsonUnescapeList (c :: cs) = c :: jsonUnescapeList cs := by
  rw [jsonUnescapeList.eq_def]
  split <;> simp_all

theorem jsonUnescape_jsonEscape (cs : List Char) :
    jsonUnescapeList (jsonEscapeList cs) = cs := by
  induction cs with
  | nil => rfl
  | cons c cs ih =>
    rw [jsonEscapeList]
    by_cases h1 : c = '"'
    · subst h1; exact congrArg (List.cons '"') ih
    · by_cases h2 : c = '\\'
      · subst h2; exact congrArg (List.cons '\\') ih
      · by_cases h3 : c = '\n'
        · subst h3; exact congrArg (List.cons '\n') ih
        · by_cases h4 : c = '\r'
          · subst h4; exact congrArg (List.cons '\r') ih
          · by_cases h5 : c = '\t'
            · subst h5; exact congrArg (List.cons '\t') ih
            · by_cases h6 : c.toNat < 32
              · have hd1 : c.toNat / 16 < 16 := by omega
                have hd2 : c.toNat % 16 < 16 := by omega
                have hesc : jsonEscapeChar c = ['\\', 'u', '0', '0',
                    hexDigitChar (c.toNat / 16), hexDigitChar (c.toNat % 16)] := by
                  simp [jsonEscapeChar, h1, h2, h3, h4, h5, h6]
                rw [hesc]
                have e1 : jsonUnescapeList ('\\' :: 'u' :: '0' :: '0' ::
                      hexDigitChar (c.toNat / 16) :: hexDigitChar (c.toNat % 16) ::
                      jsonEscapeList cs)
                    = Char.ofNat (4096 * hexDigitVal '0' + 256 * hexDigitVal '0' +
                        16 * hexDigitVal (hexDigitChar (c.toNat / 16)) +
                        hexDigitVal (hexDigitChar (c.toNat % 16))) ::
                      jsonUnescapeList (jsonEscapeList cs) := rfl
                show jsonUnescapeList ('\\' :: 'u' :: '0' :: '0' ::
                    hexDigitChar (c.toNat / 16) :: hexDigitChar (c.toNat % 16) ::
                    jsonEscapeList cs) = c :: cs
                rw [e1, ih, hexDigitVal_hexDigitChar _ hd1, hexDigitVal_hexDigitChar _ hd2]
                have hv : 4096 * hexDigitVal '0' + 256 * hexDigitVal '0' +
                    16 * (c.toNat / 16) + c.toNat % 16 = c.toNat := by
                  have h0 : hexDigitVal '0' = 0 := by decide
                  rw [h0]; omega
                rw [hv, Char.ofNat_toNat]
              · have hesc : jsonEscapeChar c = [c] := by
                  simp [jsonEscapeChar, h1, h2, h3, h4, h5, h6]
                rw [hesc]
                show jsonUnescapeList (c :: jsonEscapeList cs) = c :: cs
                rw [jsonUnescapeList_cons_of_ne c h2, ih]

/-- A parsed GraphQL request against the repository's schema.  Modelled from
the spec: `schema.graphql` (loaded by `loadSchemaSync` but not under `src/`)
declares the single query field `validateEmail(email: String!): String`, so a
request either selects that field — with or without its required argument —
or fails GraphQL parsing/validation altogether. -/
inductive GraphQLRequest where
  | validateEmailQuery (email : Option String)
  | malformedQuery

/-- The JSON envelope of a GraphQL response: a `data` object for the single
field, or an `errors` array. -/
inductive GraphQLBody where
  | dataResp (message : String)
  | errorsResp (errs : List String)

/-- Modelled from the spec: request execution by the GraphQL engine behind
`createHandler` (third-party, configured with the repository's schema, which
is not under `src/`).  A present `email` argument reaches the resolver
(`resolve`); an omitted required argument is a protocol-level validation
error — HTTP 400, an `errors` array, and no resolver invocation; a malformed
query likewise.  Status/shape per spec sections 4.3 and 7. -/
def executeGraphQL (resolve : String → String) :
    GraphQLRequest → Nat × GraphQLBody
  | GraphQLRequest.validateEmailQuery (some e) =>
      (200, GraphQLBody.dataResp (resolve e))
  | GraphQLRequest.validateEmailQuery none =>
      (400, GraphQLBody.errorsResp
        ["Field \"validateEmail\" argument \"email\" of type \"String!\" is required, but it was not provided."])
  | GraphQLRequest.malformedQuery =>
      (400, GraphQLBody.errorsResp ["GraphQL request is not well formed."])

/-- JSON rendering of one `errors` array. -/
def renderErrors (errs : List String) : String :=
  String.intercalate ","
    (errs.map (fun m => "\x7b\"message\":\"" ++ String.mk (jsonEscapeList m.data) ++ "\"\x7d"))

/-- JSON rendering of a GraphQL response body (the serialisation the HTTP
layer applies; string payloads go through `jsonEscapeList`). -/
def renderGraphQLBody : GraphQLBody → String
  | GraphQLBody.dataResp msg =>
      "\x7b\"data\":\x7b\"validateEmail\":\"" ++ String.mk (jsonEscapeList msg.data) ++ "\"\x7d\x7d"
  | GraphQLBody.errorsResp errs =>
      "\x7b\"errors\":[" ++ renderErrors errs ++ "]\x7d"

/-- An incoming HTTP request: method, path, and the GraphQL payload the
`/graphql` handler would extract from it (`none` when the request carries no
parseable payload at all). -/
structure Request where
  method : String
  path : String
  gql : Option GraphQLRequest

/-- An outgoing HTTP response. -/
structure Response where
  status : Nat
  headers : List (String × String)
  body : String

/-- First value bound to a response header name. -/
def getHeader (r : Response) (name : String) : Option String :=
  (r.headers.find? (fun p => p.1 == name)).map Prod.snd

/-- What one Express middleware does with a request: send a response, or pass
to the next layer (possibly with more response headers set). -/
inductive MwResult where
  | send (r : Response)
  | next (headers : List (String × String))

/-- An Express middleware, as the two server files use them: it sees the
request and the response headers set so far. -/
def Middleware := Request → List (String × String) → MwResult

/-- `app.use(express.static(path.join(__dirname, 'views')))`: serves the
request path when it names a file of the `views` directory and falls through
otherwise.  The directory's contents are not part of the repository, so they
are the `staticFiles` parameter. -/
def staticMw (staticFiles : String → Option String) : Middleware :=
  fun req hs =>
    match staticFiles req.path with
    | some content => MwResult.send { status := 200, headers := hs, body := content }
    | none => MwResult.next hs

/-- The exact header value `addCacheHeaders` sets in `src/unnamed/part_000`. -/
def cacheControlValue : String :=
  "no-store, no-cache, must-revalidate, proxy-revalidate"

/-- `addCacheHeaders` from `src/unnamed/part_000` (lines 34–37): sets the
Cache-Control header and calls `next()` unconditionally. -/
def addCacheHeaders : Middleware :=
  fun _ hs => MwResult.next (hs ++ [("Cache-Control", cacheControlValue)])

/-- `app.use('/graphql', createHandler({ schema, graphiql: false }))`: mounted
at `/graphql`, so it handles that path and everything under it, for any
method; it executes the GraphQL payload and sends the JSON envelope. -/
def graphqlMw (resolve : String → String) : Middleware :=
  fun req hs =>
    if req.path = "/graphql" ∨ "/graphql/".data <+: req.path.data then
      match req.gql with
      | some q =>
          let r := executeGraphQL resolve q
          MwResult.send { status := r.1,
                          headers := hs ++ [("Content-Type", "application/json; charset=utf-8")],
                          body := renderGraphQLBody r.2 }
      | none =>
          MwResult.send { status := 400,
                          headers := hs ++ [("Content-Type", "application/json; charset=utf-8")],
                          body := renderGraphQLBody
                            (GraphQLBody.errorsResp ["Missing query"]) }
    else MwResult.next hs

/-- The fixed page `setupGraphiQL` sends for GET `/graphiql`: the template
literal of `src/server.js` lines 99–129 and `src/unnamed/part_000` lines
56–86, verbatim. -/
def graphiqlHTML : String := "
      <!DOCTYPE html>
      <html>
        <head>
          <title>GraphiQL</title>
          <script src=\"../react.development.js\"></script>
          <script src=\"../react-dom.development.js\"></script>
          <script src=\"../graphiql.min.js\"></script>
          <link rel=\"stylesheet\" href=\"../graphiql.min.css\" />
        </head>
        <body style=\"margin: 0;\">
          <div id=\"graphiql\" style=\"height: 100vh;\"></div>
          <script>
            const graphQLFetcher = (graphQLParams) => \x7b
              return fetch('/graphql', \x7b
                method: 'POST',
                headers: \x7b 'Content-Type': 'application/json' \x7d,
                body: JSON.stringify(graphQLParams),
              \x7d)
              .then((response) => response.json())
              .catch((error) => error);
            \x7d;

            ReactDOM.render(
              React.createElement(GraphiQL, \x7b fetcher: graphQLFetcher \x7d),
              document.getElementById('graphiql')
            );
          </script>
        </body>
      </html>
    "

/-- `app.get('/graphiql', (req, res) => res.send(…))`: answers GET requests
for exactly `/graphiql` with the fixed page (`res.send` of a string defaults
to status 200 and a `text/html` Content-Type). -/
def graphiqlMw : Middleware :=
  fun req hs =>
    if req.method = "GET" ∧ req.path = "/graphiql" then
      MwResult.send { status := 200,
                      headers := hs ++ [("Content-Type", "text/html; charset=utf-8")],
                      body := graphiqlHTML }
    else MwResult.next hs

/-- Express dispatch: middlewares run in registration order; the first one
that sends wins; when none does, Express's final handler sends a 404 with
whatever headers were set. -/
def runMiddlewares : List Middleware → Request → List (String × String) → Response
  | [], req, hs =>
      { status := 404, headers := hs, body := "Cannot " ++ req.method ++ " " ++ req.path }
  | mw :: rest, req, hs =>
    match mw req hs with
    | MwResult.send r => r
    | MwResult.next hs2 => runMiddlewares rest req hs2

namespace ServerJs

/-- The `src/server.js` middleware pipeline, in registration order (lines 56,
80–88, 96–131): static files, then the GraphQL handler, then the GraphiQL
page.  No cache middleware is registered in this file. -/
def pipeline (isEmail : String → Bool) (staticFiles : String → Option String) :
    List Middleware :=
  [staticMw staticFiles, graphqlMw (validateEmail isEmail), graphiqlMw]

/-- One request/response cycle of the `src/server.js` app. -/
def respond (isEmail : String → Bool) (staticFiles : String → Option String)
    (req : Request) : Response :=
  runMiddlewares (pipeline isEmail staticFiles) req []

end ServerJs

namespace Part000

/-- The `src/unnamed/part_000` middleware pipeline, in registration order
(lines 31, 40, 44–50, 55–87): static files, then `addCacheHeaders`, then the
GraphQL handler, then the GraphiQL page. -/
def pipeline (isEmail : String → Bool) (staticFiles : String → Option String) :
    List Middleware :=
  [staticMw staticFiles, addCacheHeaders, graphqlMw (validateEmail isEmail), graphiqlMw]

/-- One request/response cycle of the `src/unnamed/part_000` app. -/
def respond (isEmail : String → Bool) (staticFiles : String → Option String)
    (req : Request) : Response :=
  runMiddlewares (pipeline isEmail staticFiles) req []

end Part000

/-- The fixed tail of every "valid" message. -/
def validMessageSuffix : String := "' is valid."

/-- The fixed tail of every "invalid" message. -/
def invalidMessageSuffix : String := "' is invalid."

/-- A call trace against the resolver: the outputs of a sequence of
`validateEmail` calls, in order.  The request path mutates no shared state,
so a trace is just the pointwise image of the inputs. -/
def runValidateCalls (isEmail : String → Bool) (calls : List String) : List String :=
  calls.map (ServerJs.validateEmail isEmail)

theorem validMessage_ne_invalidMessage (e : String) :
    "The email '" ++ e ++ "' is valid." ≠ "The email '" ++ e ++ "' is invalid." := by
  intro h
  have h2 := congrArg String.data h
  simp only [String.data_append, List.append_assoc] at h2
  have h3 := List.append_cancel_left (List.append_cancel_left h2)
  exact absurd h3 (by decide)

/-- C1: for every string `e`, the resolver returns exactly
`"The email '<e>' is valid."` precisely when the Email Syntax Checker
(`validator.isEmail`, the abstract `isEmail`) returns true on `e`, and
exactly `"The email '<e>' is invalid."` precisely when it returns false. -/
theorem validateEmail_exact_messages (isEmail : String → Bool) (e : String) :
    (isEmail e = true ↔
      ServerJs.validateEmail isEmail e = "The email '" ++ e ++ "' is valid.")
    ∧ (isEmail e = false ↔
      ServerJs.validateEmail isEmail e = "The email '" ++ e ++ "' is invalid.") := by
  have hne := validMessage_ne_invalidMessage e
  have hne' := Ne.symm hne
  cases hb : isEmail e
  · exact ⟨by simp [ServerJs.validateEmail, hb, hne'],
           by simp [ServerJs.validateEmail, hb]⟩
  · exact ⟨by simp [ServerJs.validateEmail, hb],
           by simp [ServerJs.validateEmail, hb, hne]⟩

/-- C9: the resolver defined in `src/server.js` and the one defined in
`src/unnamed/part_000` are extensionally equal: the same checker and input
produce the same output string. -/
theorem resolvers_extensionally_equal (isEmail : String → Bool) (e : String) :
    ServerJs.validateEmail isEmail e = Part000.validateEmail isEmail e := rfl

/-- C4: the resolver consults the checker on the raw input only (two checkers
agreeing on `e` itself — whatever they do on trimmed, case-folded or otherwise
normalised variants — give the same message), the input appears verbatim
between the fixed message prefix and tail, and the JSON string escaping
applied on output is lossless, so no input character corrupts or injects into
the surrounding JSON context. -/
theorem resolver_raw_verbatim_json_safe (c1 c2 : String → Bool) (e : String)
    (h : c1 e = c2 e) :
    ServerJs.validateEmail c1 e = ServerJs.validateEmail c2 e
    ∧ (ServerJs.validateEmail c1 e).data
        = "The email '".data ++ e.data
          ++ (if c1 e then validMessageSuffix else invalidMessageSuffix).data
    ∧ jsonUnescapeList (jsonEscapeList (ServerJs.validateEmail c1 e).data)
        = (ServerJs.validateEmail c1 e).data := by
  refine ⟨?_, ?_, jsonUnescape_jsonEscape _⟩
  · unfold ServerJs.validateEmail; rw [h]
  · cases hb : c1 e <;>
      simp [ServerJs.validateEmail, hb, validMessageSuffix, invalidMessageSuffix,
        String.data_append, List.append_assoc]

/-- C4 witness: the property evaluated at a concrete checker pair and input. -/
theorem resolver_raw_verbatim_json_safe_witness :
    ServerJs.validateEmail (fun s => decide (s = "x@y.com")) "x@y.com"
      = ServerJs.validateEmail (fun _ => true) "x@y.com"
    ∧ (ServerJs.validateEmail (fun s => decide (s = "x@y.com")) "x@y.com").data
        = "The email '".data ++ "x@y.com".data
          ++ (if (fun s => decide (s = "x@y.com")) "x@y.com" then validMessageSuffix
              else invalidMessageSuffix).data
    ∧ jsonUnescapeList (jsonEscapeList
          (ServerJs.validateEmail (fun s => decide (s = "x@y.com")) "x@y.com").data)
        = (ServerJs.validateEmail (fun s => decide (s = "x@y.com")) "x@y.com").data :=
  resolver_raw_verbatim_json_safe (fun s => decide (s = "x@y.com")) (fun _ => true)
    "x@y.com" (by decide)

/-- C10: the checker's verdict is recoverable from the message alone — the
message ends in `"' is valid."` exactly when the checker accepted and in
`"' is invalid."` exactly when it rejected, whatever the input contains. -/
theorem verdict_recoverable_from_message (isEmail : String → Bool) (e : String) :
    (validMessageSuffix.data <:+ (ServerJs.validateEmail isEmail e).data ↔
      isEmail e = true)
    ∧ (invalidMessageSuffix.data <:+ (ServerJs.validateEmail isEmail e).data ↔
      isEmail e = false) := by
  have key : ¬ validMessageSuffix.data <:+ invalidMessageSuffix.data := by decide
  have lenle : validMessageSuffix.data.length ≤ invalidMessageSuffix.data.length := by
    decide
  cases hb : isEmail e
  · have hmsg : ServerJs.validateEmail isEmail e
        = ("The email '" ++ e) ++ invalidMessageSuffix := by
      unfold ServerJs.validateEmail; rw [hb]; rfl
    have hdata : (ServerJs.validateEmail isEmail e).data
        = ("The email '" ++ e).data ++ invalidMessageSuffix.data := by
      rw [hmsg, String.data_append]
    rw [hdata]
    constructor
    · constructor
      · intro hsuf
        exact absurd
          (List.suffix_of_suffix_length_le hsuf (List.suffix_append _ _) lenle) key
      · intro h; exact absurd h (by simp)
    · exact ⟨fun _ => rfl, fun _ => List.suffix_append _ _⟩
  · have hmsg : ServerJs.validateEmail isEmail e
        = ("The email '" ++ e) ++ validMessageSuffix := by
      unfold ServerJs.validateEmail; rw [hb]; rfl
    have hdata : (ServerJs.validateEmail isEmail e).data
        = ("The email '" ++ e).data ++ validMessageSuffix.data := by
      rw [hmsg, String.data_append]
    rw [hdata]
    constructor
    · exact ⟨fun _ => rfl, fun _ => List.suffix_append _ _⟩
    · constructor
      · intro hsuf
        exact absurd
          (List.suffix_of_suffix_length_le (List.suffix_append _ _) hsuf lenle) key
      · intro h; exact absurd h (by simp)

/-- C6: the resolver is pure and deterministic over any call trace — the
answer to a call is a function of its own input alone (whatever calls came
before it), and positions of the trace holding equal inputs hold equal
outputs. -/
theorem validateEmail_pure_deterministic (isEmail : String → Bool)
    (calls : List String) (e : String) (i j : Nat)
    (h : calls[i]? = calls[j]?) :
    (runValidateCalls isEmail (calls ++ [e])).getLast?
      = some (ServerJs.validateEmail isEmail e)
    ∧ (runValidateCalls isEmail calls)[i]? = (runValidateCalls isEmail calls)[j]? := by
  constructor
  · rw [runValidateCalls, List.map_append]
    exact List.getLast?_concat _
  · rw [runValidateCalls, List.getElem?_map, List.getElem?_map, h]

/-- C6 witness: a concrete trace with a repeated input. -/
theorem validateEmail_pure_deterministic_witness :
    (runValidateCalls (fun s => decide (s = "a@b.com")) (["x", "x"] ++ ["a@b.com"])).getLast?
      = some (ServerJs.validateEmail (fun s => decide (s = "a@b.com")) "a@b.com")
    ∧ (runValidateCalls (fun s => decide (s = "a@b.com")) ["x", "x"])[0]?
      = (runValidateCalls (fun s => decide (s = "a@b.com")) ["x", "x"])[1]? :=
  validateEmail_pure_deterministic (fun s => decide (s = "a@b.com"))
    ["x", "x"] "a@b.com" 0 1 (by decide)

/-- C3 counterexample: on an input where the underlying checker fails, the
resolver does not return the "invalid" message — the failure propagates,
because the source has no `try`/`catch`. -/
theorem resolver_propagates_checker_failure :
    validateEmailExc (fun _ => Except.error "checker raised") "user@host"
      = Except.error "checker raised"
    ∧ validateEmailExc (fun _ => Except.error "checker raised") "user@host"
      ≠ Except.ok ("The email '" ++ "user@host" ++ "' is invalid.") :=
  ⟨rfl, fun h => Except.noConfusion h⟩

/-- C3 amended: the resolver installs no exception handling at all — a
checker success yields the corresponding message (so the resolver is total
whenever the checker is, as the spec assumes of `validator.isEmail` on
strings), and a checker failure propagates unchanged as a resolver fault
instead of being mapped to the "invalid" branch. -/
theorem validateEmailExc_no_catch (isEmail : String → Except String Bool)
    (e : String) (b : Bool) (err : String) :
    (isEmail e = Except.ok b →
      validateEmailExc isEmail e = Except.ok (ServerJs.validateEmail (fun _ => b) e))
    ∧ (isEmail e = Except.error err →
      validateEmailExc isEmail e = Except.error err) := by
  constructor
  · intro h; simp [validateEmailExc, h, ServerJs.validateEmail]
  · intro h; simp [validateEmailExc, h]

/-- C3 witness: both branches of the amended statement at concrete checkers. -/
theorem validateEmailExc_no_catch_witness :
    validateEmailExc (fun _ => Except.ok true) "a@b.com"
      = Except.ok (ServerJs.validateEmail (fun _ => true) "a@b.com")
    ∧ validateEmailExc (fun _ => Except.error "boom") "a@b.com"
      = Except.error "boom" :=
  ⟨(validateEmailExc_no_catch (fun _ => Except.ok true) "a@b.com" true "boom").1 rfl,
   (validateEmailExc_no_catch (fun _ => Except.error "boom") "a@b.com" true "boom").2 rfl⟩

/-- C7: issuing the same GraphQL request N times produces N identical
responses, in both server variants — the request path holds no state, so a
response never depends on how often or in what order a request was issued. -/
theorem identical_requests_identical_responses (isEmail : String → Bool)
    (staticFiles : String → Option String) (req : Request) (n : Nat) :
    (List.replicate n req).map (ServerJs.respond isEmail staticFiles)
      = List.replicate n (ServerJs.respond isEmail staticFiles req)
    ∧ (List.replicate n req).map (Part000.respond isEmail staticFiles)
      = List.replicate n (Part000.respond isEmail staticFiles req) :=
  ⟨List.map_replicate, List.map_replicate⟩

/-- C2 counterexample: two concrete responses carry no Cache-Control header
at all — a `src/server.js` response from the `/graphql` endpoint (that file
registers no cache middleware), and a `src/unnamed/part_000` response serving
a static file (`express.static` is registered before `addCacheHeaders`, so it
sends before the header is set). -/
theorem cacheControl_not_on_every_response :
    getHeader (ServerJs.respond (fun _ => true) (fun _ => none)
        { method := "POST", path := "/graphql",
          gql := some (GraphQLRequest.validateEmailQuery (some "a@b.com")) })
      "Cache-Control" = none
    ∧ getHeader (Part000.respond (fun _ => true)
        (fun p => if p = "/graphiql.min.css" then some "graphiql stylesheet" else none)
        { method := "GET", path := "/graphiql.min.css", gql := none })
      "Cache-Control" = none :=
  ⟨rfl, rfl⟩

/-- C2 amended: in the `src/unnamed/part_000` variant every response NOT
served by the static-file middleware (the `/graphql` endpoint, the
`/graphiql` page and the 404 fallback) carries the full Cache-Control
directive list, while a response serving a file of the static directory
carries no Cache-Control header, because `express.static` is registered
before `addCacheHeaders`; the `src/server.js` variant registers no cache
middleware, so its non-static responses carry no Cache-Control header
either. -/
theorem cacheControl_exact_coverage (isEmail : String → Bool)
    (staticFiles : String → Option String) (req reqStatic : Request)
    (content : String)
    (h : staticFiles req.path = none)
    (hS : staticFiles reqStatic.path = some content) :
    getHeader (Part000.respond isEmail staticFiles req) "Cache-Control"
      = some cacheControlValue
    ∧ getHeader (Part000.respond isEmail staticFiles reqStatic) "Cache-Control"
      = none
    ∧ getHeader (ServerJs.respond isEmail staticFiles req) "Cache-Control"
      = none := by
  refine ⟨?_, ?_, ?_⟩
  · obtain ⟨m, p, gql⟩ := req
    dsimp only at h
    simp only [Part000.respond, Part000.pipeline, runMiddlewares, staticMw,
      addCacheHeaders, graphqlMw, graphiqlMw, h]
    cases gql <;> split_ifs <;> rfl
  · obtain ⟨m, p, gql⟩ := reqStatic
    dsimp only at hS
    simp only [Part000.respond, Part000.pipeline, runMiddlewares, staticMw, hS]
    rfl
  · obtain ⟨m, p, gql⟩ := req
    dsimp only at h
    simp only [ServerJs.respond, ServerJs.pipeline, runMiddlewares, staticMw,
      graphqlMw, graphiqlMw, h]
    cases gql <;> split_ifs <;> rfl

/-- C2 witness: the amended coverage at a concrete checker, static directory
and request pair. -/
theorem cacheControl_exact_coverage_witness :
    getHeader (Part000.respond (fun _ => true)
        (fun p => if p = "/graphiql.min.js" then some "graphiql script" else none)
        { method := "POST", path := "/graphql",
          gql := some (GraphQLRequest.validateEmailQuery (some "a@b.com")) })
      "Cache-Control" = some cacheControlValue
    ∧ getHeader (Part000.respond (fun _ => true)
        (fun p => if p = "/graphiql.min.js" then some "graphiql script" else none)
        { method := "GET", path := "/graphiql.min.js", gql := none })
      "Cache-Control" = none
    ∧ getHeader (ServerJs.respond (fun _ => true)
        (fun p => if p = "/graphiql.min.js" then some "graphiql script" else none)
        { method := "POST", path := "/graphql",
          gql := some (GraphQLRequest.validateEmailQuery (some "a@b.com")) })
      "Cache-Control" = none :=
  cacheControl_exact_coverage (fun _ => true)
    (fun p => if p = "/graphiql.min.js" then some "graphiql script" else none)
    { method := "POST", path := "/graphql",
      gql := some (GraphQLRequest.validateEmailQuery (some "a@b.com")) }
    { method := "GET", path := "/graphiql.min.js", gql := none }
    "graphiql script" (by decide) (by decide)

theorem runMiddlewares_cons_next (mw : Middleware) (rest : List Middleware)
    (req : Request) (hs hs2 : List (String × String))
    (h : mw req hs = MwResult.next hs2) :
    runMiddlewares (mw :: rest) req hs = runMiddlewares rest req hs2 := by
  simp only [runMiddlewares, h]

theorem staticMw_miss (staticFiles : String → Option String) (req : Request)
    (hs : List (String × String)) (h : staticFiles req.path = none) :
    staticMw staticFiles req hs = MwResult.next hs := by
  simp [staticMw, h]

/-- C5: a GraphQL request on `/graphql` that omits the required `email`
argument gets HTTP status 400 with a JSON body holding a non-empty `errors`
array, and the resolver is never invoked — the outcome is the same for any
two resolver functions. -/
theorem missing_email_argument_rejected (resolve1 resolve2 : String → String)
    (isEmail : String → Bool) (staticFiles : String → Option String)
    (req : Request) (h : staticFiles req.path = none)
    (hp : req.path = "/graphql")
    (hq : req.gql = some (GraphQLRequest.validateEmailQuery none)) :
    (ServerJs.respond isEmail staticFiles req).status = 400
    ∧ (∃ errs, errs ≠ [] ∧
        (ServerJs.respond isEmail staticFiles req).body
          = renderGraphQLBody (GraphQLBody.errorsResp errs))
    ∧ executeGraphQL resolve1 (GraphQLRequest.validateEmailQuery none)
      = executeGraphQL resolve2 (GraphQLRequest.validateEmailQuery none) := by
  obtain ⟨m, p, gql⟩ := req
  dsimp only at h hp hq
  subst hp
  subst hq
  have hr : ServerJs.respond isEmail staticFiles
      { method := m, path := "/graphql",
        gql := some (GraphQLRequest.validateEmailQuery none) }
      = { status := 400,
          headers := [("Content-Type", "application/json; charset=utf-8")],
          body := renderGraphQLBody (GraphQLBody.errorsResp
            ["Field \"validateEmail\" argument \"email\" of type \"String!\" is required, but it was not provided."]) } := by
    simp only [ServerJs.respond, ServerJs.pipeline]
    rw [runMiddlewares_cons_next _ _ _ _ _ (staticMw_miss staticFiles _ [] h)]
    rfl
  refine ⟨by rw [hr],
    ⟨["Field \"validateEmail\" argument \"email\" of type \"String!\" is required, but it was not provided."],
      by simp, by rw [hr]⟩, rfl⟩

/-- C5 witness: the rejection at a concrete request and resolver pair. -/
theorem missing_email_argument_rejected_witness :
    (ServerJs.respond (fun _ => false) (fun _ => none)
        { method := "POST", path := "/graphql",
          gql := some (GraphQLRequest.validateEmailQuery none) }).status = 400
    ∧ (∃ errs, errs ≠ [] ∧
        (ServerJs.respond (fun _ => false) (fun _ => none)
            { method := "POST", path := "/graphql",
              gql := some (GraphQLRequest.validateEmailQuery none) }).body
          = renderGraphQLBody (GraphQLBody.errorsResp errs))
    ∧ executeGraphQL (fun s => s) (GraphQLRequest.validateEmailQuery none)
      = executeGraphQL (fun _ => "") (GraphQLRequest.validateEmailQuery none) :=
  missing_email_argument_rejected (fun s => s) (fun _ => "") (fun _ => false)
    (fun _ => none)
    { method := "POST", path := "/graphql",
      gql := some (GraphQLRequest.validateEmailQuery none) }
    rfl rfl rfl

set_option maxRecDepth 20000 in
/-- C8: every GET request for `/graphiql` (with the static directory holding
no file of that name, as `express.static` is consulted first) gets status
200, a `text/html` Content-Type and the fixed explorer page — the body is the
same constant for every such request, in both variants, and it contains the
explorer mount point markup. -/
theorem graphiql_page_fixed (isEmail : String → Bool)
    (staticFiles : String → Option String) (req : Request)
    (hm : req.method = "GET") (hp : req.path = "/graphiql")
    (hs : staticFiles "/graphiql" = none) :
    (ServerJs.respond isEmail staticFiles req).status = 200
    ∧ getHeader (ServerJs.respond isEmail staticFiles req) "Content-Type"
        = some "text/html; charset=utf-8"
    ∧ (ServerJs.respond isEmail staticFiles req).body = graphiqlHTML
    ∧ (Part000.respond isEmail staticFiles req).body = graphiqlHTML
    ∧ "<div id=\"graphiql\" style=\"height: 100vh;\"></div>".data <:+: graphiqlHTML.data := by
  obtain ⟨m, p, gql⟩ := req
  dsimp only at hm hp
  subst hm
  subst hp
  have h1 : ServerJs.respond isEmail staticFiles
      { method := "GET", path := "/graphiql", gql := gql }
      = { status := 200,
          headers := [("Content-Type", "text/html; charset=utf-8")],
          body := graphiqlHTML } := by
    simp only [ServerJs.respond, ServerJs.pipeline]
    rw [runMiddlewares_cons_next _ _ _ _ _ (staticMw_miss staticFiles _ [] hs)]
    rfl
  have h2 : Part000.respond isEmail staticFiles
      { method := "GET", path := "/graphiql", gql := gql }
      = { status := 200,
          headers := [("Cache-Control", cacheControlValue),
                      ("Content-Type", "text/html; charset=utf-8")],
          body := graphiqlHTML } := by
    simp only [Part000.respond, Part000.pipeline]
    rw [runMiddlewares_cons_next _ _ _ _ _ (staticMw_miss staticFiles _ [] hs)]
    rfl
  refine ⟨by rw [h1], by rw [h1]; rfl, by rw [h1], by rw [h2], ?_⟩
  decide

/-- C8 witness: the page served for a concrete GET request. -/
theorem graphiql_page_fixed_witness :
    (ServerJs.respond (fun _ => true) (fun _ => none)
        { method := "GET", path := "/graphiql", gql := none }).status = 200
    ∧ getHeader (ServerJs.respond (fun _ => true) (fun _ => none)
          { method := "GET", path := "/graphiql", gql := none }) "Content-Type"
        = some "text/html; charset=utf-8"
    ∧ (ServerJs.respond (fun _ => true) (fun _ => none)
          { method := "GET", path := "/graphiql", gql := none }).body = graphiqlHTML
    ∧ (Part000.respond (fun _ => true) (fun _ => none)
          { method := "GET", path := "/graphiql", gql := none }).body = graphiqlHTML
    ∧ "<div id=\"graphiql\" style=\"height: 100vh;\"></div>".data <:+: graphiqlHTML.data :=
  graphiql_page_fixed (fun _ => true) (fun _ => none)
    { method := "GET", path := "/graphiql", gql := none } rfl rfl rfl
